import Mathlib

/-!
Verification of the AnkiConnect protocol client and the review-submission
tool of the mcp-ankiconnect repository.

The Python sources embedded here are:
  - mcp_ankiconnect/ankiconnect_client.py : class AnkiConnectClient with
    the retry and error-normalization logic of invoke, plus the
    convenience operations wrapping invoke;
  - mcp_ankiconnect/config.py : the protocol constants and the rating map;
  - mcp_ankiconnect/server.py : the submit_reviews tool.

Network behaviour is modelled by an oracle: each delivery attempt is given
an AttemptOutcome describing what the call to client.post did (raised a
timeout, raised some other exception, or returned an HTTP response), and
the body of a response is given as either a parsed envelope or an
exception raised while parsing or validating it.
-/

set_option maxRecDepth 20000

namespace Anki

/-- Arbitrary JSON-serializable values, as exchanged in envelopes. -/
inductive JsonValue where
  | null
  | boolean (b : Bool)
  | num (n : Int)
  | str (s : String)
  | arr (elems : List JsonValue)
  | obj (fields : List (String × JsonValue))

/-- Python exception classes relevant to the client: RuntimeError,
ValueError (which subsumes the pydantic ValidationError and the json
decode error), httpx.TimeoutException, every other httpx.HTTPError
(HTTPStatusError and the non-timeout transport errors), and any other
exception class. -/
inductive PyTy where
  | runtimeError
  | valueError
  | timeoutExc
  | httpError
  | otherExc
  deriving DecidableEq

/-- A Python exception value: its class, the text of str(e), and the
cause recorded by a raise-from statement. -/
inductive PyExc where
  | mk (ty : PyTy) (msg : String) (cause : Option PyExc)

def PyExc.ty : PyExc → PyTy
  | .mk t _ _ => t

def PyExc.msg : PyExc → String
  | .mk _ m _ => m

def PyExc.cause : PyExc → Option PyExc
  | .mk _ _ c => c

/-- In httpx, TimeoutException is a subclass of HTTPError, so a handler
for httpx.HTTPError also catches timeouts. -/
def isHttpErrorTy (t : PyTy) : Bool :=
  t = PyTy.httpError || t = PyTy.timeoutExc

/-- Boolean counterpart of the Python substring test pat in s. -/
def strContains (s pat : String) : Bool :=
  decide (pat.toList <:+: s.toList)

/-- ASCII lowercasing, agreeing with the Python lower method on the
ASCII rating strings the code compares against. -/
def pyLower (s : String) : String :=
  String.mk (s.toList.map Char.toLower)

/-- Constants from mcp_ankiconnect/config.py. -/
def ANKI_CONNECT_URL : String := "http://localhost:8765"

def ANKI_CONNECT_VERSION : Nat := 6

/-- Rating map RATING_TO_EASE from config.py, as a lookup function
mirroring dict.get. -/
def RATING_TO_EASE : String → Option Nat
  | "wrong" => some 1
  | "hard" => some 2
  | "good" => some 3
  | "easy" => some 4
  | _ => none

/-- The closed set of action names of the AnkiAction enum. -/
inductive AnkiAction where
  | deckNames
  | findCards
  | cardsInfo
  | answerCards
  | modelNames
  | modelFieldNames
  | addNote
  | findNotes
  | notesInfo
  deriving DecidableEq

/-- String value of each AnkiAction enum member. -/
def AnkiAction.value : AnkiAction → String
  | .deckNames => "deckNames"
  | .findCards => "findCards"
  | .cardsInfo => "cardsInfo"
  | .answerCards => "answerCards"
  | .modelNames => "modelNames"
  | .modelFieldNames => "modelFieldNames"
  | .addNote => "addNote"
  | .findNotes => "findNotes"
  | .notesInfo => "notesInfo"

/-- The request envelope built by invoke, as serialized by model_dump. -/
structure AnkiConnectRequest where
  action : String
  version : Nat
  params : List (String × JsonValue)

/-- The response envelope AnkiConnectResponse: result is an arbitrary
payload, error an optional string. -/
structure AnkiConnectResponse where
  result : JsonValue
  error : Option String

/-- What reading and validating the body of an HTTP response did:
either some exception was raised by response.json or by
AnkiConnectResponse.model_validate, or a well-formed envelope came back. -/
inductive BodyOutcome where
  | raiseExc (e : PyExc)
  | envelope (env : AnkiConnectResponse)

/-- An HTTP response as seen by the client. statusError carries the
message of the httpx.HTTPStatusError that raise_for_status raises for a
non-success status, or none when the status is a success. -/
structure HttpResponse where
  statusError : Option String
  body : BodyOutcome

/-- Behaviour of one call to client.post: a timeout exception, any other
exception, or a response. -/
inductive AttemptOutcome where
  | timeout (msg : String)
  | postRaise (e : PyExc)
  | response (r : HttpResponse)

/-- State after the delivery loop of invoke: either a response was
obtained and the loop exited by break, or some exception propagated out
of the loop. -/
inductive PostPhase where
  | gotResponse (r : HttpResponse)
  | raised (e : PyExc)

/-- Result of running the delivery loop: how many attempts posted a
request, the sleep durations performed between attempts in seconds, and
how the loop ended. -/
structure RunRes where
  attempts : Nat
  sleeps : List Nat
  phase : PostPhase

/-- Local variable retries = 3 of invoke. -/
def retries : Nat := 3

/-- Message of the RuntimeError raised when every attempt timed out,
with retries interpolated as in the f-string of the source. -/
def connectionFailureMsg : String :=
  "Unable to connect to Anki after " ++ toString retries ++
    " attempts. Please ensure Anki is running and the AnkiConnect plugin is installed."

/-- Message for the unreachable zero-fuel case: were the loop to run zero
times, the later use of the local name response would be a NameError. -/
def noResponseMsg : String := "NameError: response is not defined"

/-- The delivery loop, for attempt in range of retries. The fuel
argument is the number of iterations left, so fuel = retries - attempt
throughout, and the Python test attempt == retries - 1 holds exactly when
fuel is one. A timeout on the last iteration raises the RuntimeError with
connectionFailureMsg; a timeout earlier sleeps 2 to the power attempt
seconds and continues; any other exception from post propagates at once;
a response breaks out of the loop. -/
def attemptsRun (outcomes : Nat → AttemptOutcome) : Nat → Nat → RunRes
  | 0, _ => ⟨0, [], .raised (PyExc.mk .otherExc noResponseMsg none)⟩
  | 1, attempt =>
    match outcomes attempt with
    | .response r => ⟨1, [], .gotResponse r⟩
    | .postRaise e => ⟨1, [], .raised e⟩
    | .timeout _ => ⟨1, [], .raised (PyExc.mk .runtimeError connectionFailureMsg none)⟩
  | fuel + 2, attempt =>
    match outcomes attempt with
    | .response r => ⟨1, [], .gotResponse r⟩
    | .postRaise e => ⟨1, [], .raised e⟩
    | .timeout _ =>
      let r := attemptsRun outcomes (fuel + 1) (attempt + 1)
      ⟨r.attempts + 1, 2 ^ attempt :: r.sleeps, r.phase⟩

/-- The handler chain of the second try block of invoke: except
httpx.HTTPError rewraps as a RuntimeError, except ValueError re-raises
unchanged, except Exception rewraps as a RuntimeError tagged as
unexpected. Both rewrapping branches use raise-from, recording the
original as cause. -/
def handleResponsePhaseExc (e : PyExc) : PyExc :=
  if isHttpErrorTy e.ty then
    PyExc.mk .runtimeError ("Failed to communicate with AnkiConnect: " ++ e.msg) (some e)
  else if e.ty = PyTy.valueError then
    e
  else
    PyExc.mk .runtimeError ("Unexpected error during AnkiConnect operation: " ++ e.msg) (some e)

/-- Outcome of invoke: the returned result payload or the exception that
propagated out. -/
inductive InvokeResult where
  | ok (v : JsonValue)
  | raised (e : PyExc)

/-- Processing of the obtained response inside the second try block:
raise_for_status, then response.json and model_validate, then the check
of the error field. The truthiness test of the error field in Python is
false both for None and for the empty string. The ValueError raised for
a non-null non-empty error field is routed through the same handler
chain, which re-raises it unchanged. -/
def processResponse (r : HttpResponse) : InvokeResult :=
  match r.statusError with
  | some m => .raised (handleResponsePhaseExc (PyExc.mk .httpError m none))
  | none =>
    match r.body with
    | .raiseExc e => .raised (handleResponsePhaseExc e)
    | .envelope env =>
      match env.error with
      | some errStr =>
        if errStr = "" then
          .ok env.result
        else
          .raised (handleResponsePhaseExc
            (PyExc.mk .valueError ("AnkiConnect error: " ++ errStr) none))
      | none => .ok env.result

/-- Observable trace of one call to invoke: the number of delivery
attempts, the request envelopes posted (one per attempt, from the single
request object built before the loop), the sleeps performed, and the
final outcome. -/
structure InvokeTrace where
  attempts : Nat
  sent : List AnkiConnectRequest
  sleeps : List Nat
  result : InvokeResult

/-- AnkiConnectClient.invoke. The request envelope is built once, before
the loop, with version ANKI_CONNECT_VERSION; every attempt posts that
same envelope. Exceptions propagating out of the delivery loop (the
exhaustion RuntimeError and any non-timeout exception from post) are not
seen by the second try block. -/
def invoke (action : AnkiAction) (params : List (String × JsonValue))
    (outcomes : Nat → AttemptOutcome) : InvokeTrace :=
  let request : AnkiConnectRequest := ⟨action.value, ANKI_CONNECT_VERSION, params⟩
  let run := attemptsRun outcomes retries 0
  { attempts := run.attempts
    sent := List.replicate run.attempts request
    sleeps := run.sleeps
    result :=
      match run.phase with
      | .raised e => .raised e
      | .gotResponse r => processResponse r }

/-- The nine convenience operations of AnkiConnectClient. -/
inductive OpName where
  | cardsInfo
  | deckNames
  | findCards
  | answerCards
  | modelFieldNames
  | modelNames
  | findNotes
  | addNote
  | notesInfo
  deriving DecidableEq

/-- Operation-context prefix each convenience operation puts in front of
str(e) when rewrapping a failure from invoke. -/
def opContext : OpName → String
  | .cardsInfo => "Error getting cards info: "
  | .deckNames => "Error getting deck names: "
  | .findCards => "Error finding cards: "
  | .answerCards => "Error answering cards: "
  | .modelFieldNames => "Error getting model field names: "
  | .modelNames => "Error getting model names: "
  | .findNotes => "Error finding notes: "
  | .addNote => "Error adding note: "
  | .notesInfo => "Error getting notes info: "

/-- The except-Exception handler of each convenience operation: it
rewraps the failure as a RuntimeError with the operation context
prefixed to str(e), with raise-from recording the cause. Only deck_names
first tests isinstance RuntimeError together with the substring test for
the connection marker, and re-raises such failures unchanged. -/
def wrapOpError (op : OpName) (e : PyExc) : PyExc :=
  if op = OpName.deckNames ∧ e.ty = PyTy.runtimeError ∧
      strContains e.msg "Unable to connect to Anki" = true then
    e
  else
    PyExc.mk .runtimeError (opContext op ++ e.msg) (some e)

/-- The four kinds of the error taxonomy. -/
inductive ErrKind where
  | connection
  | transport
  | application
  | unexpected
  deriving DecidableEq

/-- Distinguishing marker text of each kind, present in the message of
every error of that kind that invoke raises. -/
def kindMarker : ErrKind → String
  | .connection => "Unable to connect to Anki"
  | .transport => "Failed to communicate with AnkiConnect"
  | .application => "AnkiConnect error:"
  | .unexpected => "Unexpected error during AnkiConnect operation"

/-- The shapes of the four tagged raise sites of invoke, each paired with
its kind in the taxonomy. -/
inductive InvokeErrShape : PyExc → ErrKind → Prop where
  | connection :
      InvokeErrShape (PyExc.mk .runtimeError connectionFailureMsg none) .connection
  | transport (m : String) (c : PyExc) :
      InvokeErrShape
        (PyExc.mk .runtimeError ("Failed to communicate with AnkiConnect: " ++ m) (some c))
        .transport
  | application (m : String) :
      InvokeErrShape (PyExc.mk .valueError ("AnkiConnect error: " ++ m) none) .application
  | unexpected (m : String) (c : PyExc) :
      InvokeErrShape
        (PyExc.mk .runtimeError ("Unexpected error during AnkiConnect operation: " ++ m) (some c))
        .unexpected

/-- One element of the reviews argument of submit_reviews. The card_id
field holds some n when the supplied value is a Python int and none when
it is any non-integer value or the key is absent; rating holds the
string form of the supplied rating value. -/
structure Review where
  card_id : Option Int
  rating : String
  deriving DecidableEq

/-- One element of the answers list passed to answer_cards. -/
structure Answer where
  cardId : Int
  ease : Nat
  deriving DecidableEq

/-- A validation failure recorded for one review: either its card_id is
not an integer, or its lowercased rating is not a key of
RATING_TO_EASE. The offending review is carried, as the source embeds it
in the error string. -/
inductive ValidationIssue where
  | invalidCardId (r : Review)
  | invalidRating (r : Review)
  deriving DecidableEq

/-- The validation loop of submit_reviews: in order, each review either
contributes an answer or a validation issue. The card_id test comes
first; an invalid card_id skips the rating test. The rating is lowercased
before the lookup, mirroring str of the value followed by lower. -/
def validateReviews : List Review → List Answer × List ValidationIssue
  | [] => ([], [])
  | r :: rest =>
    let tail := validateReviews rest
    match r.card_id with
    | none => (tail.1, ValidationIssue.invalidCardId r :: tail.2)
    | some cid =>
      match RATING_TO_EASE (pyLower r.rating) with
      | none => (tail.1, ValidationIssue.invalidRating r :: tail.2)
      | some ease => (Answer.mk cid ease :: tail.1, tail.2)

/-- The reporting loop of submit_reviews, for i and review in enumerate
of reviews: the success flag of the review at index i is results at i
when i is in range and False otherwise. -/
def reportFrom (results : List Bool) : Nat → List Review → List (Review × Bool)
  | _, [] => []
  | i, r :: rest => (r, results.getD i false) :: reportFrom results (i + 1) rest

/-- The value submit_reviews returns, abstracted from its exact string
form: the early no-reviews return, the validation-error return, the
no-valid-reviews return, or the per-review report with the success and
failure counts of the summary line. -/
inductive SubmitOutcome where
  | noReviews
  | validationFailed (issues : List ValidationIssue)
  | noValidReviews
  | submitted (perReview : List (Review × Bool)) (successCount failCount : Nat)

/-- Observable trace of one call to submit_reviews: invoked holds the
answers list passed to answer_cards when the network call happens, and
none when submit_reviews returns before creating the client. -/
structure SubmitTrace where
  invoked : Option (List Answer)
  outcome : SubmitOutcome

/-- The submit_reviews tool of server.py. The results argument is the
oracle for what answer_cards returns; it is consulted only when the
validation passed and the network call is reached. -/
def submit_reviews (reviews : List Review) (results : List Bool) : SubmitTrace :=
  if reviews.isEmpty then
    ⟨none, .noReviews⟩
  else
    let v := validateReviews reviews
    if v.2.isEmpty = false then
      ⟨none, .validationFailed v.2⟩
    else if v.1.isEmpty then
      ⟨none, .noValidReviews⟩
    else
      let per := reportFrom results 0 reviews
      ⟨some v.1, .submitted per (per.countP (fun x => x.2)) (per.countP (fun x => !x.2))⟩

/-- Report list of a submit trace, empty for the early returns. -/
def reportOf (t : SubmitTrace) : List (Review × Bool) :=
  match t.outcome with
  | .submitted per _ _ => per
  | _ => []

/-! Helper lemmas about string containment. -/

theorem str_toList_append (s t : String) : (s ++ t).toList = s.toList ++ t.toList := by
  cases s
  cases t
  rfl

theorem strContains_iff (s pat : String) :
    strContains s pat = true ↔ pat.toList <:+: s.toList := by
  simp [strContains]

theorem strContains_self (s : String) : strContains s s = true := by
  rw [strContains_iff]

theorem strContains_append_left (pre m pat : String)
    (h : strContains m pat = true) : strContains (pre ++ m) pat = true := by
  rw [strContains_iff] at h ⊢
  rw [str_toList_append]
  obtain ⟨u, v, huv⟩ := h
  exact ⟨pre.toList ++ u, v, by rw [← huv]; simp [List.append_assoc]⟩

theorem strContains_append_right (m suf pat : String)
    (h : strContains m pat = true) : strContains (m ++ suf) pat = true := by
  rw [strContains_iff] at h ⊢
  rw [str_toList_append]
  obtain ⟨u, v, huv⟩ := h
  exact ⟨u, v ++ suf.toList, by rw [← huv]; simp [List.append_assoc]⟩

/-! Helper lemmas about the delivery loop. -/

theorem attemptsRun_response_last (o : Nat → AttemptOutcome) (att : Nat) (r : HttpResponse)
    (h : o att = .response r) :
    attemptsRun o 1 att = ⟨1, [], .gotResponse r⟩ := by
  simp only [attemptsRun]
  rw [h]

theorem attemptsRun_response_step (o : Nat → AttemptOutcome) (fuel att : Nat) (r : HttpResponse)
    (h : o att = .response r) :
    attemptsRun o (fuel + 2) att = ⟨1, [], .gotResponse r⟩ := by
  simp only [attemptsRun]
  rw [h]

theorem attemptsRun_postRaise_step (o : Nat → AttemptOutcome) (fuel att : Nat) (e : PyExc)
    (h : o att = .postRaise e) :
    attemptsRun o (fuel + 2) att = ⟨1, [], .raised e⟩ := by
  simp only [attemptsRun]
  rw [h]

theorem attemptsRun_timeout_last (o : Nat → AttemptOutcome) (att : Nat) (m : String)
    (h : o att = .timeout m) :
    attemptsRun o 1 att
      = ⟨1, [], .raised (PyExc.mk .runtimeError connectionFailureMsg none)⟩ := by
  simp only [attemptsRun]
  rw [h]

theorem attemptsRun_timeout_step (o : Nat → AttemptOutcome) (fuel att : Nat) (m : String)
    (h : o att = .timeout m) :
    attemptsRun o (fuel + 2) att
      = ⟨(attemptsRun o (fuel + 1) (att + 1)).attempts + 1,
          2 ^ att :: (attemptsRun o (fuel + 1) (att + 1)).sleeps,
          (attemptsRun o (fuel + 1) (att + 1)).phase⟩ := by
  simp only [attemptsRun]
  rw [h]

/-! Helper lemmas about validation and reporting in submit_reviews. -/

theorem validateReviews_length (rs : List Review) :
    (validateReviews rs).1.length + (validateReviews rs).2.length = rs.length := by
  induction rs with
  | nil => rfl
  | cons r rest ih =>
    simp only [validateReviews]
    cases hc : r.card_id with
    | none =>
      simp only [List.length_cons]
      omega
    | some cid =>
      cases he : RATING_TO_EASE (pyLower r.rating) with
      | none =>
        simp only [List.length_cons]
        omega
      | some ease =>
        simp only [List.length_cons]
        omega

theorem reportFrom_length (results : List Bool) (i : Nat) (rs : List Review) :
    (reportFrom results i rs).length = rs.length := by
  induction rs generalizing i with
  | nil => rfl
  | cons r rest ih => simp [reportFrom, ih]

theorem reportFrom_get? (results : List Bool) (rs : List Review) (i j : Nat) :
    (reportFrom results i rs).get? j
      = (rs.get? j).map (fun r => (r, results.getD (i + j) false)) := by
  induction rs generalizing i j with
  | nil => simp [reportFrom]
  | cons r rest ih =>
    cases j with
    | zero => simp [reportFrom]
    | succ j' =>
      have := ih (i + 1) j'
      simpa [reportFrom, Nat.add_assoc, Nat.add_comm 1 j'] using this

theorem validateReviews_issue_of_bad (rs : List Review) (r : Review) (hr : r ∈ rs)
    (hbad : r.card_id = none ∨ RATING_TO_EASE (pyLower r.rating) = none) :
    (validateReviews rs).2 ≠ [] := by
  induction rs with
  | nil => cases hr
  | cons a rest ih =>
    simp only [validateReviews]
    cases hc : a.card_id with
    | none => simp
    | some cid =>
      cases he : RATING_TO_EASE (pyLower a.rating) with
      | none => simp
      | some ease =>
        rcases List.mem_cons.mp hr with hra | hrest
        · subst hra
          rcases hbad with hb | hb
          · rw [hb] at hc
            cases hc
          · rw [hb] at he
            cases he
        · simpa using ih hrest

theorem list_isEmpty_false {α : Type} (l : List α) (h : l ≠ []) : l.isEmpty = false := by
  cases l with
  | nil => exact absurd rfl h
  | cons a t => rfl

theorem attemptsRun_timeout_chain (o : Nat → AttemptOutcome) (fuel att : Nat) (m : String)
    (h : o att = .timeout m) (res : RunRes)
    (hres : attemptsRun o (fuel + 1) (att + 1) = res) :
    attemptsRun o (fuel + 2) att = ⟨res.attempts + 1, 2 ^ att :: res.sleeps, res.phase⟩ := by
  rw [attemptsRun_timeout_step o fuel att m h, hres]

/-! Claim theorems. -/

/-- C1: when every delivery attempt fails with a connection-timeout
exception, invoke makes exactly 3 total attempts, sleeping 2 to the power
attempt seconds between attempts, that is 1 second after the first
failure and 2 seconds after the second, then fails with the
ConnectionFailure error; the total backoff delay is at least 3 seconds. -/
theorem C1_retry_exhaustion (a : AnkiAction) (p : List (String × JsonValue))
    (outcomes : Nat → AttemptOutcome)
    (h : ∀ i, i < retries → ∃ m, outcomes i = AttemptOutcome.timeout m) :
    (invoke a p outcomes).attempts = 3 ∧
    (invoke a p outcomes).sleeps = [1, 2] ∧
    (invoke a p outcomes).result
      = InvokeResult.raised (PyExc.mk .runtimeError connectionFailureMsg none) ∧
    3 ≤ (invoke a p outcomes).sleeps.sum := by
  obtain ⟨m0, h0⟩ := h 0 (by norm_num [retries])
  obtain ⟨m1, h1⟩ := h 1 (by norm_num [retries])
  obtain ⟨m2, h2⟩ := h 2 (by norm_num [retries])
  have e2 : attemptsRun outcomes 1 2
      = ⟨1, [], .raised (PyExc.mk .runtimeError connectionFailureMsg none)⟩ :=
    attemptsRun_timeout_last outcomes 2 m2 h2
  have e1 : attemptsRun outcomes 2 1
      = ⟨2, [2], .raised (PyExc.mk .runtimeError connectionFailureMsg none)⟩ :=
    attemptsRun_timeout_chain outcomes 0 1 m1 h1 _ e2
  have e0 : attemptsRun outcomes 3 0
      = ⟨3, [1, 2], .raised (PyExc.mk .runtimeError connectionFailureMsg none)⟩ :=
    attemptsRun_timeout_chain outcomes 1 0 m0 h0 _ e1
  refine ⟨?_, ?_, ?_, ?_⟩ <;> simp [invoke, retries, e0]

/-- C1 witness: the theorem applied to deckNames with no params and an
oracle that times out on every attempt. -/
theorem C1_retry_exhaustion_witness :
    (invoke .deckNames [] (fun _ => AttemptOutcome.timeout "Connection timed out")).attempts = 3 ∧
    (invoke .deckNames [] (fun _ => AttemptOutcome.timeout "Connection timed out")).sleeps = [1, 2] ∧
    (invoke .deckNames [] (fun _ => AttemptOutcome.timeout "Connection timed out")).result
      = InvokeResult.raised (PyExc.mk .runtimeError connectionFailureMsg none) ∧
    3 ≤ (invoke .deckNames [] (fun _ => AttemptOutcome.timeout "Connection timed out")).sleeps.sum :=
  C1_retry_exhaustion .deckNames [] _ (fun _ _ => ⟨"Connection timed out", rfl⟩)

/-- C2: evaluation of the code at the failing input. After three timeouts
the raised error message does contain the text 3 attempts, but it
contains neither the endpoint URL nor the last underlying error message,
contrary to the claim; the own test suite of the repository
(tests/test_timeouts.py) expects both to be present and expects a
distinct AnkiConnectionError type that the client never defines. -/
theorem C2_message_lacks_endpoint :
    (invoke .deckNames [] (fun _ => AttemptOutcome.timeout "Connection timed out")).result
      = InvokeResult.raised (PyExc.mk .runtimeError connectionFailureMsg none) ∧
    strContains connectionFailureMsg "3 attempts" = true ∧
    strContains connectionFailureMsg ANKI_CONNECT_URL = false ∧
    strContains connectionFailureMsg "Connection timed out" = false :=
  ⟨rfl, by decide, by decide, by decide⟩

/-- C3 counterexample: the error field of the envelope is tested for
truthiness, so the non-null empty error string is treated as no error and
invoke returns the result instead of failing with an ApplicationError. -/
theorem C3_counterexample :
    (invoke .deckNames []
        (fun _ => AttemptOutcome.response ⟨none, .envelope ⟨JsonValue.num 7, some ""⟩⟩)).result
      = InvokeResult.ok (JsonValue.num 7) := rfl

/-- C3 amended: for every action, params and non-EMPTY error string X in
a transport-successful response, invoke fails with the ApplicationError
ValueError whose message contains X verbatim, regardless of the result
field, and the failure consumes exactly one attempt, so it is never
retried. -/
theorem C3_application_error (a : AnkiAction) (p : List (String × JsonValue))
    (X : String) (hX : X ≠ "") (R : JsonValue) (outcomes : Nat → AttemptOutcome)
    (h0 : outcomes 0 = AttemptOutcome.response ⟨none, .envelope ⟨R, some X⟩⟩) :
    (invoke a p outcomes).attempts = 1 ∧
    (invoke a p outcomes).result
      = InvokeResult.raised (PyExc.mk .valueError ("AnkiConnect error: " ++ X) none) ∧
    strContains ("AnkiConnect error: " ++ X) X = true := by
  have e0 : attemptsRun outcomes 3 0
      = ⟨1, [], .gotResponse ⟨none, .envelope ⟨R, some X⟩⟩⟩ :=
    attemptsRun_response_step outcomes 1 0 _ h0
  refine ⟨?_, ?_, strContains_append_left _ _ _ (strContains_self X)⟩
  · simp [invoke, retries, e0]
  · simp [invoke, retries, e0, processResponse, hX, handleResponsePhaseExc, isHttpErrorTy,
      PyExc.ty]

/-- C3 witness: the amended theorem applied at the error string deck not
found with a null result. -/
theorem C3_application_error_witness :
    (invoke .deckNames []
        (fun _ => AttemptOutcome.response
          ⟨none, .envelope ⟨JsonValue.null, some "deck not found"⟩⟩)).attempts = 1 ∧
    (invoke .deckNames []
        (fun _ => AttemptOutcome.response
          ⟨none, .envelope ⟨JsonValue.null, some "deck not found"⟩⟩)).result
      = InvokeResult.raised
          (PyExc.mk .valueError ("AnkiConnect error: " ++ "deck not found") none) ∧
    strContains ("AnkiConnect error: " ++ "deck not found") "deck not found" = true :=
  C3_application_error .deckNames [] "deck not found" (by decide) JsonValue.null _ rfl

/-- C4: for every transport-successful response envelope with a null
error and result R, invoke returns R unmodified. -/
theorem C4_roundtrip (a : AnkiAction) (p : List (String × JsonValue)) (R : JsonValue)
    (outcomes : Nat → AttemptOutcome)
    (h0 : outcomes 0 = AttemptOutcome.response ⟨none, .envelope ⟨R, none⟩⟩) :
    (invoke a p outcomes).result = InvokeResult.ok R := by
  have e0 : attemptsRun outcomes 3 0 = ⟨1, [], .gotResponse ⟨none, .envelope ⟨R, none⟩⟩⟩ :=
    attemptsRun_response_step outcomes 1 0 _ h0
  simp [invoke, retries, e0, processResponse]

/-- C4 witness: the round-trip theorem applied to addNote with the
result payload 12345. -/
theorem C4_roundtrip_witness :
    (invoke .addNote []
        (fun _ => AttemptOutcome.response
          ⟨none, .envelope ⟨JsonValue.num 12345, none⟩⟩)).result
      = InvokeResult.ok (JsonValue.num 12345) :=
  C4_roundtrip .addNote [] (JsonValue.num 12345) _ rfl

/-- C5 counterexample: deck_names re-raises a ConnectionFailure from
invoke completely unchanged, adding no operation context, so the claim
that every convenience operation re-raises every failure with added
operation context is false; the context string of deck_names does not
occur in the re-raised message. -/
theorem C5_counterexample :
    wrapOpError OpName.deckNames (PyExc.mk .runtimeError connectionFailureMsg none)
      = PyExc.mk .runtimeError connectionFailureMsg none ∧
    strContains
      (wrapOpError OpName.deckNames
        (PyExc.mk .runtimeError connectionFailureMsg none)).msg
      (opContext OpName.deckNames) = false :=
  ⟨rfl, by decide⟩

/-- C5 amended: for every convenience operation and every taxonomy-shaped
failure raised by invoke, the re-raised error preserves the original
message as a substring, keeps the distinguishing kind marker recoverable
by inspection of the message, and either adds the operation context with
the original recorded as the cause or, only in the deck_names case for
RuntimeErrors carrying the connection marker, re-raises the original
unchanged. -/
theorem C5_wrap_preserves (op : OpName) (e : PyExc) (k : ErrKind)
    (h : InvokeErrShape e k) :
    strContains (wrapOpError op e).msg e.msg = true ∧
    strContains (wrapOpError op e).msg (kindMarker k) = true ∧
    ((wrapOpError op e).msg = opContext op ++ e.msg ∧ (wrapOpError op e).cause = some e ∨
      wrapOpError op e = e ∧ op = OpName.deckNames ∧
        strContains e.msg "Unable to connect to Anki" = true) := by
  have hm : strContains e.msg (kindMarker k) = true := by
    cases h with
    | connection => decide
    | transport m c => exact strContains_append_right _ m _ (by decide)
    | application m => exact strContains_append_right _ m _ (by decide)
    | unexpected m c => exact strContains_append_right _ m _ (by decide)
  by_cases hc : op = OpName.deckNames ∧ e.ty = PyTy.runtimeError ∧
      strContains e.msg "Unable to connect to Anki" = true
  · have hw : wrapOpError op e = e := by
      simp only [wrapOpError]
      rw [if_pos hc]
    rw [hw]
    exact ⟨strContains_self _, hm, Or.inr ⟨rfl, hc.1, hc.2.2⟩⟩
  · have hw : wrapOpError op e
        = PyExc.mk .runtimeError (opContext op ++ e.msg) (some e) := by
      simp only [wrapOpError]
      rw [if_neg hc]
    rw [hw]
    exact ⟨strContains_append_left _ _ _ (strContains_self _),
      strContains_append_left _ _ _ hm, Or.inl ⟨rfl, rfl⟩⟩

/-- C5 witness: the amended theorem applied to cards_info wrapping an
ApplicationError. -/
theorem C5_wrap_preserves_witness :
    strContains
      (wrapOpError OpName.cardsInfo
        (PyExc.mk .valueError ("AnkiConnect error: " ++ "boom") none)).msg
      (PyExc.mk .valueError ("AnkiConnect error: " ++ "boom") none).msg = true ∧
    strContains
      (wrapOpError OpName.cardsInfo
        (PyExc.mk .valueError ("AnkiConnect error: " ++ "boom") none)).msg
      (kindMarker ErrKind.application) = true ∧
    ((wrapOpError OpName.cardsInfo
        (PyExc.mk .valueError ("AnkiConnect error: " ++ "boom") none)).msg
        = opContext OpName.cardsInfo
            ++ (PyExc.mk .valueError ("AnkiConnect error: " ++ "boom") none).msg ∧
      (wrapOpError OpName.cardsInfo
        (PyExc.mk .valueError ("AnkiConnect error: " ++ "boom") none)).cause
        = some (PyExc.mk .valueError ("AnkiConnect error: " ++ "boom") none) ∨
      wrapOpError OpName.cardsInfo
          (PyExc.mk .valueError ("AnkiConnect error: " ++ "boom") none)
        = PyExc.mk .valueError ("AnkiConnect error: " ++ "boom") none ∧
        OpName.cardsInfo = OpName.deckNames ∧
        strContains (PyExc.mk .valueError ("AnkiConnect error: " ++ "boom") none).msg
          "Unable to connect to Anki" = true) :=
  C5_wrap_preserves OpName.cardsInfo
    (PyExc.mk .valueError ("AnkiConnect error: " ++ "boom") none)
    ErrKind.application (InvokeErrShape.application "boom")

/-- C6 counterexample: a non-timeout, non-HTTP, non-ValueError exception
raised by post during a delivery attempt propagates out of invoke
completely unwrapped, not as an UnexpectedFailure RuntimeError; its
message does not carry the unexpected-error marker. -/
theorem C6_counterexample :
    (invoke .deckNames []
        (fun _ => AttemptOutcome.postRaise (PyExc.mk .otherExc "boom" none))).result
      = InvokeResult.raised (PyExc.mk .otherExc "boom" none) ∧
    strContains "boom" "Unexpected error during AnkiConnect operation" = false :=
  ⟨rfl, by decide⟩

/-- C6 amended: an exception raised while processing an obtained response
that is neither an HTTP-transport error nor a ValueError is wrapped by
invoke into the UnexpectedFailure RuntimeError carrying the original
message and recording the original as cause; non-timeout exceptions
raised by post itself, by contrast, propagate unwrapped. -/
theorem C6_unexpected_wrapped (a : AnkiAction) (p : List (String × JsonValue))
    (e : PyExc) (outcomes : Nat → AttemptOutcome)
    (he1 : isHttpErrorTy e.ty = false) (he2 : e.ty ≠ PyTy.valueError)
    (h0 : outcomes 0 = AttemptOutcome.response ⟨none, .raiseExc e⟩) :
    (invoke a p outcomes).result
      = InvokeResult.raised
          (PyExc.mk .runtimeError
            ("Unexpected error during AnkiConnect operation: " ++ e.msg) (some e)) := by
  have e0 : attemptsRun outcomes 3 0 = ⟨1, [], .gotResponse ⟨none, .raiseExc e⟩⟩ :=
    attemptsRun_response_step outcomes 1 0 _ h0
  simp [invoke, retries, e0, processResponse, handleResponsePhaseExc, he1, he2]

/-- C6 witness: the amended theorem applied to an exception of an
unrelated class raised while decoding the response body. -/
theorem C6_unexpected_wrapped_witness :
    (invoke .deckNames []
        (fun _ => AttemptOutcome.response
          ⟨none, .raiseExc (PyExc.mk .otherExc "boom" none)⟩)).result
      = InvokeResult.raised
          (PyExc.mk .runtimeError
            ("Unexpected error during AnkiConnect operation: "
              ++ (PyExc.mk .otherExc "boom" none).msg)
            (some (PyExc.mk .otherExc "boom" none))) :=
  C6_unexpected_wrapped .deckNames [] (PyExc.mk .otherExc "boom" none) _
    (by decide) (by decide) rfl

/-- C7: invoke builds one request envelope before the loop and posts that
same envelope once per delivery attempt, so the sent list has one entry
per attempt, every sent envelope equals the envelope built from the
caller input with the fixed protocol version, and its version field is
the constant 6. -/
theorem C7_envelope_invariant (a : AnkiAction) (p : List (String × JsonValue))
    (outcomes : Nat → AttemptOutcome) (env : AnkiConnectRequest)
    (henv : env ∈ (invoke a p outcomes).sent) :
    (invoke a p outcomes).sent.length = (invoke a p outcomes).attempts ∧
    env = AnkiConnectRequest.mk a.value ANKI_CONNECT_VERSION p ∧
    env.version = 6 := by
  have hsent : (invoke a p outcomes).sent
      = List.replicate (attemptsRun outcomes retries 0).attempts
          (AnkiConnectRequest.mk a.value ANKI_CONNECT_VERSION p) := rfl
  have heq : env = AnkiConnectRequest.mk a.value ANKI_CONNECT_VERSION p :=
    List.eq_of_mem_replicate (hsent ▸ henv)
  refine ⟨?_, heq, ?_⟩
  · rw [hsent]
    simp [invoke]
  · rw [heq]
    rfl

/-- C7 witness: the invariant applied to a single successful delivery of
the deckNames action. -/
theorem C7_envelope_invariant_witness :
    (invoke .deckNames []
        (fun _ => AttemptOutcome.response
          ⟨none, .envelope ⟨JsonValue.null, none⟩⟩)).sent.length
      = (invoke .deckNames []
          (fun _ => AttemptOutcome.response
            ⟨none, .envelope ⟨JsonValue.null, none⟩⟩)).attempts ∧
    AnkiConnectRequest.mk AnkiAction.deckNames.value ANKI_CONNECT_VERSION []
      = AnkiConnectRequest.mk AnkiAction.deckNames.value ANKI_CONNECT_VERSION [] ∧
    (AnkiConnectRequest.mk AnkiAction.deckNames.value ANKI_CONNECT_VERSION []).version = 6 :=
  C7_envelope_invariant .deckNames [] _
    (AnkiConnectRequest.mk AnkiAction.deckNames.value ANKI_CONNECT_VERSION [])
    (List.mem_cons_self _ _)

/-- C8: a connection timeout on the first attempt followed by a
transport-successful non-error response on the second makes invoke
return the successful result after exactly 2 attempts, with the single
backoff sleep of 1 second and no further retry consumed. -/
theorem C8_retry_then_success (a : AnkiAction) (p : List (String × JsonValue))
    (m : String) (R : JsonValue) (outcomes : Nat → AttemptOutcome)
    (h0 : outcomes 0 = AttemptOutcome.timeout m)
    (h1 : outcomes 1 = AttemptOutcome.response ⟨none, .envelope ⟨R, none⟩⟩) :
    (invoke a p outcomes).attempts = 2 ∧
    (invoke a p outcomes).sleeps = [1] ∧
    (invoke a p outcomes).result = InvokeResult.ok R := by
  have e1 : attemptsRun outcomes 2 1 = ⟨1, [], .gotResponse ⟨none, .envelope ⟨R, none⟩⟩⟩ :=
    attemptsRun_response_step outcomes 0 1 _ h1
  have e0 : attemptsRun outcomes 3 0
      = ⟨2, [1], .gotResponse ⟨none, .envelope ⟨R, none⟩⟩⟩ :=
    attemptsRun_timeout_chain outcomes 1 0 m h0 _ e1
  refine ⟨?_, ?_, ?_⟩ <;> simp [invoke, retries, e0, processResponse]

/-- C8 witness: the theorem applied to a timeout followed by a successful
deckNames response. -/
theorem C8_retry_then_success_witness :
    (invoke .deckNames []
        (fun i => if i = 0 then AttemptOutcome.timeout "t"
          else AttemptOutcome.response
            ⟨none, .envelope ⟨JsonValue.str "ok", none⟩⟩)).attempts = 2 ∧
    (invoke .deckNames []
        (fun i => if i = 0 then AttemptOutcome.timeout "t"
          else AttemptOutcome.response
            ⟨none, .envelope ⟨JsonValue.str "ok", none⟩⟩)).sleeps = [1] ∧
    (invoke .deckNames []
        (fun i => if i = 0 then AttemptOutcome.timeout "t"
          else AttemptOutcome.response
            ⟨none, .envelope ⟨JsonValue.str "ok", none⟩⟩)).result
      = InvokeResult.ok (JsonValue.str "ok") :=
  C8_retry_then_success .deckNames [] "t" (JsonValue.str "ok") _ rfl rfl

/-- C9: for every submitted batch of validated reviews and any boolean
result list, possibly shorter than the batch, submit_reviews invokes
answer_cards with one answer per review and reports every review at an
index inside the result list according to that entry and every review at
an index beyond the result list as failed, with no index error: the
report is total and has one entry per review. -/
theorem C9_length_mismatch_safe (reviews : List Review) (results : List Bool) (i : Nat)
    (hne : reviews ≠ []) (hvalid : (validateReviews reviews).2 = []) :
    (submit_reviews reviews results).invoked = some (validateReviews reviews).1 ∧
    (reportOf (submit_reviews reviews results)).length = reviews.length ∧
    (reportOf (submit_reviews reviews results)).get? i
      = (reviews.get? i).map (fun r => (r, results.getD i false)) := by
  have hre : reviews.isEmpty = false := list_isEmpty_false reviews hne
  have hv2 : (validateReviews reviews).2.isEmpty = true := by
    rw [hvalid]
    rfl
  have hv1 : (validateReviews reviews).1.isEmpty = false := by
    refine list_isEmpty_false _ (fun hcon => ?_)
    have hlen := validateReviews_length reviews
    rw [hvalid, hcon] at hlen
    simp at hlen
    exact hne (List.length_eq_zero.mp hlen.symm)
  have hsub : submit_reviews reviews results
      = ⟨some (validateReviews reviews).1,
          .submitted (reportFrom results 0 reviews)
            ((reportFrom results 0 reviews).countP (fun x => x.2))
            ((reportFrom results 0 reviews).countP (fun x => !x.2))⟩ := by
    simp only [submit_reviews]
    rw [hre, hv2, hv1]
    simp
  rw [hsub]
  refine ⟨rfl, ?_, ?_⟩
  · simp [reportOf, reportFrom_length]
  · have := reportFrom_get? results reviews 0 i
    simpa [reportOf] using this

/-- C9 witness: three valid reviews against a result list of length one;
the first review is reported from the list and the two out-of-range
reviews are reported as failed. -/
theorem C9_length_mismatch_safe_witness :
    (submit_reviews
        [Review.mk (some 1) "wrong", Review.mk (some 2) "hard", Review.mk (some 3) "good"]
        [true]).invoked
      = some (validateReviews
          [Review.mk (some 1) "wrong", Review.mk (some 2) "hard",
            Review.mk (some 3) "good"]).1 ∧
    (reportOf (submit_reviews
        [Review.mk (some 1) "wrong", Review.mk (some 2) "hard", Review.mk (some 3) "good"]
        [true])).length
      = [Review.mk (some 1) "wrong", Review.mk (some 2) "hard",
          Review.mk (some 3) "good"].length ∧
    (reportOf (submit_reviews
        [Review.mk (some 1) "wrong", Review.mk (some 2) "hard", Review.mk (some 3) "good"]
        [true])).get? 2
      = ([Review.mk (some 1) "wrong", Review.mk (some 2) "hard",
          Review.mk (some 3) "good"].get? 2).map
          (fun r => (r, [true].getD 2 false)) :=
  C9_length_mismatch_safe
    [Review.mk (some 1) "wrong", Review.mk (some 2) "hard", Review.mk (some 3) "good"]
    [true] 2 (by decide) rfl

/-- C10 counterexample: the rating WRONG in upper case is outside the
literal rating set, yet submit_reviews lowercases ratings before the
lookup, accepts the review, performs the network invocation and reports
success, instead of returning a validation error without invoking. -/
theorem C10_counterexample :
    List.contains ["wrong", "hard", "good", "easy"] "WRONG" = false ∧
    (submit_reviews [Review.mk (some 1) "WRONG"] [true]).invoked
      = some [Answer.mk 1 1] ∧
    (submit_reviews [Review.mk (some 1) "WRONG"] [true]).outcome
      = SubmitOutcome.submitted [(Review.mk (some 1) "WRONG", true)] 1 0 :=
  ⟨by decide, rfl, rfl⟩

/-- C10 amended: whenever some review has a non-integer card_id or a
rating whose lowercased form is not a key of the rating map,
submit_reviews returns a validation-error outcome and performs no
network invocation at all, so none of the reviews is submitted. -/
theorem C10_validation_blocks (reviews : List Review) (results : List Bool)
    (r : Review) (hr : r ∈ reviews)
    (hbad : r.card_id = none ∨ RATING_TO_EASE (pyLower r.rating) = none) :
    (submit_reviews reviews results).invoked = none ∧
    ∃ issues, issues ≠ [] ∧
      (submit_reviews reviews results).outcome
        = SubmitOutcome.validationFailed issues := by
  have hne : reviews ≠ [] := List.ne_nil_of_mem hr
  have hre : reviews.isEmpty = false := list_isEmpty_false reviews hne
  have hv2 : (validateReviews reviews).2 ≠ [] :=
    validateReviews_issue_of_bad reviews r hr hbad
  have hv2e : (validateReviews reviews).2.isEmpty = false := list_isEmpty_false _ hv2
  have hsub : submit_reviews reviews results
      = ⟨none, .validationFailed (validateReviews reviews).2⟩ := by
    simp only [submit_reviews]
    rw [hre, hv2e]
    simp
  rw [hsub]
  exact ⟨rfl, (validateReviews reviews).2, hv2, rfl⟩

/-- C10 witness: a batch holding one valid review and one review with a
non-integer card_id is rejected whole, with no invocation. -/
theorem C10_validation_blocks_witness :
    (submit_reviews [Review.mk (some 1) "wrong", Review.mk none "good"]
        [true, true]).invoked = none ∧
    ∃ issues, issues ≠ [] ∧
      (submit_reviews [Review.mk (some 1) "wrong", Review.mk none "good"]
          [true, true]).outcome
        = SubmitOutcome.validationFailed issues :=
  C10_validation_blocks [Review.mk (some 1) "wrong", Review.mk none "good"]
    [true, true] (Review.mk none "good") (by simp) (Or.inl rfl)

end Anki
